import Mathlib

/-!
Shallow embedding of `SDclass.py` (class `SDCompare`), a benchmarking harness
for Stable Diffusion pipelines.  Pure control flow and data plumbing of the
class are translated into Lean; calls into external libraries (diffusers,
clip, pytorch_fid, PIL, requests, torch) are modelled by opaque-but-total
oracle functions passed as arguments, or by free constructions that record
exactly the arguments the source passes to the library.
-/

/-- Python numbers, keeping the int/float distinction that the source relies
on in `__call__` (`num_inference_steps // 2.5` produces a float). -/
inductive PyNum where
  | int (n : ℤ)
  | float (q : ℚ)
deriving DecidableEq

def PyNum.toRat : PyNum → ℚ
  | .int n => (n : ℚ)
  | .float q => q

/-- Python `int // float`: true division followed by floor, yielding a float. -/
def pyFloorDiv (n : ℤ) (q : ℚ) : PyNum :=
  .float ((⌊(n : ℚ) / q⌋ : ℤ) : ℚ)

/-- Python `max(a, b)` on two numbers: returns `b` when `b > a`, else `a`
(so the type of the result follows the chosen argument). -/
def pyMax (a b : PyNum) : PyNum :=
  if a.toRat < b.toRat then b else a

/-- Python `round(q, nd)`: round to `nd` decimal places (tie-breaking at the
float level is not modelled; no claim depends on it). -/
def pyRound (q : ℚ) (nd : ℕ) : ℚ :=
  ((round (q * 10 ^ nd) : ℤ) : ℚ) / 10 ^ nd

/-- Values stored in Python keyword-argument dictionaries. -/
inductive PVal where
  | str (s : String)
  | num (n : PyNum)
deriving DecidableEq

/-- First-match lookup in an association list (Python `d[k]` / `k in d`). -/
def alookup {α : Type} : List (String × α) → String → Option α
  | [], _ => none
  | (k, v) :: rest, key => if k = key then some v else alookup rest key

/-- Python `d[k] = v`: overwrite in place when the key exists, else append. -/
def dinsert {α : Type} : List (String × α) → String → α → List (String × α)
  | [], key, v => [(key, v)]
  | (k, w) :: rest, key, v =>
      if k = key then (key, v) :: rest else (k, w) :: dinsert rest key v

/-- Python `d.update(kw)`: insert every binding of `kw` into `d`, in order. -/
def dictUpdate {α : Type} (d kw : List (String × α)) : List (String × α) :=
  kw.foldl (fun acc p => dinsert acc p.1 p.2) d

/-- Python truthiness of an optional string argument: `None` and `""` are
falsy (used to model the `arg or self.attr` idiom of the `init_*` methods). -/
def truthy : Option String → Bool
  | none => false
  | some s => if s = "" then false else true

/-- Resolution of the `arg = arg or self.attr` idiom for string arguments. -/
def orSelf (arg : Option String) (current : String) : String :=
  match arg with
  | some s => if s = "" then current else s
  | none => current

/-- A scheduler object; `from_config` records the class, the source config
and the keyword parameters the source passes (the library call is opaque). -/
structure Scheduler where
  klass : String
  config : String
  params : List (String × PVal)
deriving DecidableEq

/-- Modelling of `from_config` applied to the class stored under the
`scheduler` key of a scheduler dict: the result remembers exactly what it
was built from (the library call is opaque). -/
def from_config (klass : String) (config : String) (params : List (String × PVal)) : Scheduler :=
  { klass := klass, config := config, params := params }

/-- A scheduler-dict argument: keys `scheduler`, `params` (optional; the
source reads it with a `get` defaulting to an empty dict) and `name`. -/
structure SchedulerDict where
  scheduler : String
  params : Option (List (String × PVal))
  name : String
deriving DecidableEq

/-- A bare diffusers pipeline as produced by `from_pretrained`. -/
structure Pipe where
  pretrained : String
  scheduler : Scheduler
  unet : ℕ
  vae : ℕ
deriving DecidableEq

def freshPipe (name : String) : Pipe :=
  { pretrained := name
    scheduler := { klass := "from_pretrained", config := name, params := [] }
    unet := 0, vae := 0 }

/-- The object stored in `self.pipe`: a bare pipeline, possibly wrapped by a
TGATE loader (`TgateSDLoader` / `TgateSDXLLoader`). -/
inductive PipeObj where
  | base (p : Pipe)
  | tgateSD (inner : PipeObj)
  | tgateSDXL (inner : PipeObj)
deriving DecidableEq

/-- Reading `self.pipe.scheduler` (TGATE loaders delegate to the wrapped
pipeline). -/
def PipeObj.getSched : PipeObj → Scheduler
  | .base p => p.scheduler
  | .tgateSD i => i.getSched
  | .tgateSDXL i => i.getSched

/-- Assigning `self.pipe.scheduler`. -/
def PipeObj.setSched : PipeObj → Scheduler → PipeObj
  | .base p, sch => .base { p with scheduler := sch }
  | .tgateSD i, sch => .tgateSD (i.setSched sch)
  | .tgateSDXL i, sch => .tgateSDXL (i.setSched sch)

/-- The pipe with its scheduler replaced by a fixed dummy: two pipes agree on
everything except the scheduler iff their erasures are equal. -/
def PipeObj.eraseSched (p : PipeObj) : PipeObj :=
  p.setSched { klass := "", config := "", params := [] }

/-- The value of `self.clip_model`: initially a model-name string, after
`init_CLIP_model` the object returned by `clip.load(...).to("cuda").eval()`
(modelled freely as `loaded arg cudaEval`). -/
inductive ClipVal where
  | name (s : String)
  | loaded (arg : ClipVal) (cudaEval : Bool)
deriving DecidableEq

def isName : ClipVal → Bool
  | .name _ => true
  | .loaded _ _ => false

/-- The first component of the pair returned by `clip.load`. -/
def clipLoad (x : ClipVal) : ClipVal := .loaded x false

/-- Moving a loaded CLIP model to cuda and switching it to eval mode. -/
def toCudaEval : ClipVal → ClipVal
  | .loaded a _ => .loaded a true
  | v => v

/-- A `DeepCacheSDHelper` built on a pipe, after `set_params` with
`cache_interval=3` and `cache_branch_id=0`, and `enable`. -/
structure DeepCacheHelper where
  pipe : PipeObj
  cache_interval : ℤ
  cache_branch_id : ℤ
  enabled : Bool
deriving DecidableEq

/-- Python exceptions the class can raise. -/
inductive PyErr where
  | attributeError (msg : String)
  | unboundLocalError (name : String)
  | keyError (key : String)
deriving DecidableEq

/-- The error raised by evaluating `os.join`, which does not exist
(`os.path.join` was intended). -/
def osJoinErr : PyErr := .attributeError "module os has no attribute join"

/-- The attributes of an `SDCompare` object.  Attributes that `__init__` has
not yet assigned are represented by placeholder values. -/
structure SDState where
  model : String
  cache_model : String
  scheduler_dict : SchedulerDict
  clip_model : ClipVal
  clip_preprocess : Option ClipVal
  data_path : String
  pipe : PipeObj
  inference_steps : ℤ
  img_ids_val : List ℕ
  img_ids_test : List ℕ
  path_coco_imgs : String
  path_coco_FID : String
deriving DecidableEq

/-- Embedding of `SDCompare.init_pipe`: dispatch on the model name.  For a model other
than `"SD"`/`"SDXL"` no branch assigns the local `pipe`, so the following
`pipe.to("cuda")` raises `UnboundLocalError`. -/
def init_pipe (s : SDState) (arg : Option String) : Except PyErr SDState :=
  let model := orSelf arg s.model
  let s := { s with model := model }
  if s.model = "SD" then
    .ok { s with pipe := .base (freshPipe "stabilityai/stable-diffusion-2-1") }
  else if s.model = "SDXL" then
    .ok { s with pipe := .base (freshPipe "stabilityai/stable-diffusion-xl-base-1.0") }
  else
    .error (.unboundLocalError "pipe")

/-- Embedding of `SDCompare.init_scheduler`: store the dict and rebuild
only the scheduler of the pipeline, from the config of the old scheduler
plus the `params` of the dict (empty when the key is absent). -/
def init_scheduler (s : SDState) (arg : Option SchedulerDict) : SDState :=
  let scheduler_dict := arg.getD s.scheduler_dict
  { s with
      scheduler_dict := scheduler_dict
      pipe := s.pipe.setSched
        (from_config scheduler_dict.scheduler (s.pipe.getSched).config
          (scheduler_dict.params.getD [])) }

/-- Embedding of `SDCompare.init_CLIP_model`.  The second component is the argument the
source passes to `clip.load` (the resolved local `clip_model`). -/
def init_CLIP_model (s : SDState) (arg : Option String) : SDState × ClipVal :=
  let clip_model : ClipVal :=
    match arg with
    | some c => if c = "" then s.clip_model else .name c
    | none => s.clip_model
  let loaded := clipLoad clip_model
  ({ s with clip_model := toCudaEval loaded, clip_preprocess := some clip_model },
   clip_model)

/-- Embedding of `SDCompare.init_cacher`: wrap in a TGATE loader when `cache_model` is
`"tgate"` or `"both"` (choosing the loader by `self.model`), and build and
enable a `DeepCacheSDHelper` when it is `"deepcache"` or `"both"`. -/
def init_cacher (s : SDState) (arg : Option String) : SDState × Option DeepCacheHelper :=
  let cache_model := orSelf arg s.cache_model
  let s := { s with cache_model := cache_model }
  let pipe1 :=
    if cache_model = "tgate" ∨ cache_model = "both" then
      if s.model = "SD" then PipeObj.tgateSD s.pipe
      else if s.model = "SDXL" then PipeObj.tgateSDXL s.pipe
      else s.pipe
    else s.pipe
  let helper :=
    if cache_model = "deepcache" ∨ cache_model = "both" then
      some { pipe := pipe1, cache_interval := 3, cache_branch_id := 0, enabled := true }
    else none
  ({ s with pipe := pipe1 }, helper)

/-- Where a generation request is dispatched in `__call__`. -/
inductive CallTarget where
  | pipePlain
  | pipeTgate
deriving DecidableEq

/-- One generation call: the attribute called and the keyword arguments. -/
structure GenCall where
  target : CallTarget
  params : List (String × PVal)
deriving DecidableEq

/-- Embedding of the `__call__` method: build `call_params`, then either call the pipeline
directly (`cache_model == "deepcache"`) or add `gate_step` and call
`self.pipe.tgate`.  `gate_step` is computed from the value that
`call_params` holds under the `num_inference_steps` key at that point, which is
`self.inference_steps`; `kwargs` are merged afterwards in both branches. -/
def SDCompare_call (s : SDState) (prompt : String) (kwargs : List (String × PVal)) : GenCall :=
  let call_params : List (String × PVal) :=
    [("prompt", .str prompt), ("num_inference_steps", .num (.int s.inference_steps))]
  if s.cache_model = "deepcache" then
    { target := .pipePlain, params := dictUpdate call_params kwargs }
  else
    let gate_step := pyMax (pyFloorDiv s.inference_steps (5 / 2)) (.int 1)
    { target := .pipeTgate
      params := dictUpdate (dinsert call_params "gate_step" (.num gate_step)) kwargs }

/-- Operations performed by `__init__` and the `init_*` methods; constructors
also cover operations on paths the code never reaches (such as the
`COCO(...)` annotation loads of `init_COCO_data`). -/
inductive Ev where
  | makedirs (path : String)
  | initPipe (model : String)
  | initScheduler
  | initCacher (cache_model : String)
  | cocoLoad (annFile : String)
  | seed (n : ℕ)
  | shuffle
  | download (imgId : ℕ)
  | saveResized (imgId : ℕ) (w h : ℕ)
  | initCLIP
  | setInferenceSteps (n : ℤ)
deriving DecidableEq

def isCocoLoad : Ev → Bool
  | .cocoLoad _ => true
  | _ => false

/-- Embedding of `SDCompare.init_COCO_data`.  Lines 109-110 evaluate `os.join` only when
the corresponding path argument is falsy (the `or` short-circuits on the
truthy defaults); after the two `os.makedirs` calls, line 114 evaluates
`os.path.exists` of an `os.join` of the data path and the annotations
directory, whose `os.join`
raises `AttributeError` unconditionally.  Everything after line 114 —
annotation download, the two `COCO(...)` loads, seeding, shuffling, split
selection, image download and 299x299 resizing — is unreachable and is
therefore not part of the returned behaviour. -/
def init_COCO_data (data_path : String) (N_val N_test : ℕ)
    (path_coco_imgs path_coco_FID : Option String) : List Ev × Except PyErr Unit :=
  if truthy path_coco_imgs = false then ([], .error osJoinErr)
  else if truthy path_coco_FID = false then ([], .error osJoinErr)
  else
    ([Ev.makedirs (path_coco_imgs.getD ""), Ev.makedirs (path_coco_FID.getD "")],
     .error osJoinErr)

/-- The attribute assignments at the top of `__init__`, with placeholders for
attributes no statement has assigned yet. -/
def initialSDState (scheduler_dict : SchedulerDict)
    (cache_model model clip_model data_path : String) : SDState :=
  { model := model
    cache_model := cache_model
    scheduler_dict := scheduler_dict
    clip_model := .name clip_model
    clip_preprocess := none
    data_path := data_path
    pipe := .base (freshPipe "")
    inference_steps := 0
    img_ids_val := []
    img_ids_test := []
    path_coco_imgs := ""
    path_coco_FID := "" }

/-- Embedding of the constructor: field assignments, `os.makedirs` on the data path,
then the five `init_*` calls in program order and `self.inference_steps = 15`.
Returns the operations performed and either the final state or the exception
that aborted construction. -/
def SDCompare_init (scheduler_dict : SchedulerDict)
    (cache_model model clip_model data_path : String) :
    List Ev × Except PyErr SDState :=
  let s0 := initialSDState scheduler_dict cache_model model clip_model data_path
  match init_pipe s0 none with
  | .error e => ([Ev.makedirs data_path], .error e)
  | .ok s1 =>
    let s2 := init_scheduler s1 none
    let s3 := (init_cacher s2 none).1
    let coco := init_COCO_data s3.data_path 512 1024 (some "imgs_coco") (some "imgs_coco_FID")
    let evs := [Ev.makedirs data_path, Ev.initPipe s1.model, Ev.initScheduler,
                Ev.initCacher s3.cache_model] ++ coco.1
    match coco.2 with
    | .error e => (evs, .error e)
    | .ok _ =>
      let s4 := (init_CLIP_model s3 none).1
      (evs ++ [Ev.initCLIP, Ev.setInferenceSteps 15], .ok { s4 with inference_steps := 15 })

def exceptOk {ε α : Type} : Except ε α → Bool
  | .ok _ => true
  | .error _ => false

/-- A PIL image, reduced to the data the claims mention. -/
structure Img where
  w : ℕ
  h : ℕ
  data : ℕ
deriving DecidableEq

/-- PIL resize of an image to the given width and height. -/
def Img.resize (i : Img) (w h : ℕ) : Img := { i with w := w, h := h }

/-- Modelling of `os.path.join` for a relative second component. -/
def ospath_join (a b : String) : String := a ++ "/" ++ b

/-- The external computations `get_stats` and `get_clip_score` call into:
running the diffusion pipeline on a dispatched call under a torch seed,
CLIP scoring (the body of `get_clip_score`, pure library calls), FID over
two image directories, the COCO caption table, `random.choice` under a
`random.seed`, and `Image.open`. -/
structure Oracle where
  generate : GenCall → ℕ → Img
  clipScore : Img → String → ℚ
  fid : String → String → ℚ
  captions : ℕ → List String
  randChoice : ℕ → List String → String
  openImg : String → Img

/-- One iteration of the CLIP loop of `get_stats`, at enumeration index
`p.1` and image id `p.2`: choose a caption under `random.seed(p.1)`,
generate conditionally under `torch.manual_seed(p.1)`, open the reference
image, and score both against the caption. -/
def clipPair (s : SDState) (o : Oracle) (p : ℕ × ℕ) : ℚ × ℚ :=
  let prompt := o.randChoice p.1 (o.captions p.2)
  let img_gen_cond := o.generate (SDCompare_call s prompt []) p.1
  let img_coco := o.openImg (ospath_join s.path_coco_imgs (toString p.2 ++ ".png"))
  (o.clipScore img_gen_cond prompt, o.clipScore img_coco prompt)

/-- Filesystem- and generation-level operations performed by `get_stats`. -/
inductive StatEvent where
  | mkdirs (path : String)
  | genCond (seedN : ℕ) (prompt : String)
  | genUncond (seedN : ℕ)
  | saveImg (path : String) (w h : ℕ)
  | fidCall (path1 path2 : String)
  | rmtree (path : String)
deriving DecidableEq

/-- One iteration of the FID loop of `get_stats`: generate with the empty
prompt under `torch.manual_seed(p.1)`, resize to 299x299, and save under the
`FID` subdirectory of the generation folder as `<img_id>.png`. -/
def fidIter (s : SDState) (o : Oracle) (path_gen_FID : String) (p : ℕ × ℕ) : List StatEvent :=
  let img_gen_uncond := o.generate (SDCompare_call s "" []) p.1
  let img_resized := img_gen_uncond.resize 299 299
  [StatEvent.genUncond p.1,
   StatEvent.saveImg (ospath_join path_gen_FID (toString p.2 ++ ".png"))
     img_resized.w img_resized.h]

/-- The default generation folder, interpolating model, cache model,
scheduler name and inference steps. -/
def default_path_gen (s : SDState) : String :=
  "imgs_" ++ s.model ++ "/cache_" ++ s.cache_model ++ "/" ++
    s.scheduler_dict.name ++ "/" ++ toString s.inference_steps

/-- Indexing `self.img_ids` with the split selector: the dict holds exactly
the keys `val` and `test`; any other key raises `KeyError`. -/
def getSplit (s : SDState) (val_test : String) : Except PyErr (List ℕ) :=
  if val_test = "val" then .ok s.img_ids_val
  else if val_test = "test" then .ok s.img_ids_test
  else .error (.keyError val_test)

/-- Embedding of `SDCompare.get_stats`: CLIP loop filling the score tensor row by row,
CLIP statistics, FID loop saving resized unconditional generations under
`path_gen/FID`, then `calculate_fid_given_paths([self.path_coco_FID,
path_gen], ...)` — the source passes `path_gen`, not the `FID` subdirectory
the loop saved into — and optional `shutil.rmtree(self.path_gen_FID)`.
Returns the operation trace and either the stats dict or the exception. -/
def get_stats (s : SDState) (o : Oracle) (path_gen_arg : Option String)
    (val_test : String) (delete_gen_after : Bool) :
    List StatEvent × Except PyErr (List (String × ℚ)) :=
  let path_gen := path_gen_arg.getD (default_path_gen s)
  let path_gen_FID := ospath_join path_gen "FID"
  let mkEvents := [StatEvent.mkdirs path_gen, StatEvent.mkdirs path_gen_FID]
  match getSplit s val_test with
  | .error e => (mkEvents, .error e)
  | .ok ids =>
    let clip_scores := ids.enum.foldl (fun acc p => acc ++ [clipPair s o p]) []
    let clip_mean := (clip_scores.map Prod.fst).sum / (ids.length : ℚ)
    let clip_diff := (clip_scores.map (fun r => |r.1 - r.2|)).sum / (ids.length : ℚ)
    let clip_events := ids.enum.map (fun p => StatEvent.genCond p.1 (o.randChoice p.1 (o.captions p.2)))
    let fid_events := ids.enum.foldl (fun acc p => acc ++ fidIter s o path_gen_FID p) []
    let fid_value := o.fid s.path_coco_FID path_gen
    let stats := [("CLIP_mean", clip_mean), ("CLIP_diff", clip_diff), ("FID", fid_value)]
    (mkEvents ++ clip_events ++ fid_events ++ [StatEvent.fidCall s.path_coco_FID path_gen] ++
       (if delete_gen_after then [StatEvent.rmtree path_gen_FID] else []),
     .ok stats)

/-- The profiled FLOP count as a function of the profiled calls. -/
structure Profiler where
  flops : List GenCall → ℚ

/-- Embedding of `SDCompare.get_tflops`: run one `self(prompt, **kwargs)`
call inside the profiler context (the generated image is discarded), then
return the profiled FLOP count divided by 1e12, rounded via `round` to
three decimals. -/
def get_tflops (s : SDState) (prof : Profiler) (prompt : String)
    (print_table : Bool) (kwargs : List (String × PVal)) : List GenCall × ℚ :=
  let profiled := [SDCompare_call s prompt kwargs]
  (profiled, pyRound (prof.flops profiled / 1000000000000) 3)

/-- The keys of a returned stats dict (`none` when the call raised). -/
def okKeys (r : Except PyErr (List (String × ℚ))) : Option (List String) :=
  match r with
  | .ok l => some (l.map Prod.fst)
  | .error _ => none

/-- Lookup in a returned stats dict (`none` when the call raised). -/
def okLookup (r : Except PyErr (List (String × ℚ))) (k : String) : Option ℚ :=
  match r with
  | .ok l => alookup l k
  | .error _ => none

/-- The split the chosen `val_test` selector denotes. -/
def splitIds (s : SDState) (val_test : String) : List ℕ :=
  if val_test = "val" then s.img_ids_val else s.img_ids_test

/-- A concrete, fully initialized state used to instantiate theorems. -/
def exState : SDState :=
  { model := "SD"
    cache_model := "both"
    scheduler_dict := { scheduler := "DDIMScheduler", params := none, name := "ddim" }
    clip_model := .name "ViT-B/32"
    clip_preprocess := none
    data_path := "data"
    pipe := .base (freshPipe "stabilityai/stable-diffusion-2-1")
    inference_steps := 15
    img_ids_val := [3]
    img_ids_test := [7]
    path_coco_imgs := "imgs_coco"
    path_coco_FID := "imgs_coco_FID" }

/-- A concrete oracle used to instantiate theorems. -/
def exOracle : Oracle :=
  { generate := fun _ _ => { w := 512, h := 512, data := 0 }
    clipScore := fun _ _ => 1 / 2
    fid := fun _ _ => 7
    captions := fun _ => ["a photo"]
    randChoice := fun _ l => l.headD ""
    openImg := fun _ => { w := 640, h := 480, data := 1 } }

/-! Helper lemmas shared by several claim theorems. -/

theorem foldl_snoc {α β : Type} (f : α → β) (l : List α) : ∀ init : List β,
    l.foldl (fun acc a => acc ++ [f a]) init = init ++ l.map f := by
  induction l with
  | nil => intro init; simp
  | cons a t ih => intro init; simp [List.foldl_cons, ih]

theorem getSched_setSched (p : PipeObj) (sch : Scheduler) :
    (p.setSched sch).getSched = sch := by
  induction p with
  | base q => rfl
  | tgateSD i ih => simpa [PipeObj.setSched, PipeObj.getSched] using ih
  | tgateSDXL i ih => simpa [PipeObj.setSched, PipeObj.getSched] using ih

theorem setSched_setSched (p : PipeObj) (a b : Scheduler) :
    (p.setSched a).setSched b = p.setSched b := by
  induction p with
  | base q => rfl
  | tgateSD i ih => simp [PipeObj.setSched, ih]
  | tgateSDXL i ih => simp [PipeObj.setSched, ih]

theorem alookup_dinsert_self {α : Type} (d : List (String × α)) (k : String) (v : α) :
    alookup (dinsert d k v) k = some v := by
  induction d with
  | nil => simp [dinsert, alookup]
  | cons p t ih =>
    by_cases h : p.1 = k <;> cases p <;>
      simp_all [dinsert, alookup]

theorem alookup_dinsert_ne {α : Type} (d : List (String × α)) (k k' : String) (v : α)
    (h : k' ≠ k) : alookup (dinsert d k' v) k = alookup d k := by
  induction d with
  | nil => simp [dinsert, alookup, h]
  | cons p t ih =>
    cases p with
    | mk k0 w =>
      by_cases h2 : k0 = k' <;> simp_all [dinsert, alookup]

theorem alookup_eq_none {α : Type} (t : List (String × α)) (k : String)
    (h : k ∉ t.map Prod.fst) : alookup t k = none := by
  induction t with
  | nil => rfl
  | cons p t ih =>
    cases p with
    | mk k0 w => simp_all [alookup, eq_comm]

theorem alookup_dictUpdate_of_none {α : Type} (kw : List (String × α)) (k : String)
    (h : alookup kw k = none) (d : List (String × α)) :
    alookup (dictUpdate d kw) k = alookup d k := by
  induction kw generalizing d with
  | nil => rfl
  | cons p t ih =>
    cases p with
    | mk k0 v =>
      have h1 : ¬ (k0 = k) := by
        intro e; simp [alookup, e] at h
      have h2 : alookup t k = none := by simpa [alookup, h1] using h
      have step : dictUpdate d ((k0, v) :: t) = dictUpdate (dinsert d k0 v) t := rfl
      rw [step, ih h2, alookup_dinsert_ne _ _ _ _ h1]

theorem alookup_dictUpdate_of_some {α : Type} (kw : List (String × α)) (k : String) (v : α)
    (hn : (kw.map Prod.fst).Nodup) (h : alookup kw k = some v) (d : List (String × α)) :
    alookup (dictUpdate d kw) k = some v := by
  induction kw generalizing d with
  | nil => simp [alookup] at h
  | cons p t ih =>
    cases p with
    | mk k0 w =>
      have step : dictUpdate d ((k0, w) :: t) = dictUpdate (dinsert d k0 w) t := rfl
      by_cases e : k0 = k
      · subst e
        have hv : w = v := by simpa [alookup] using h
        have hnotin : k0 ∉ t.map Prod.fst := (List.nodup_cons.mp (by simpa using hn)).1
        have ht : alookup t k0 = none := alookup_eq_none t k0 hnotin
        rw [step, alookup_dictUpdate_of_none t k0 ht, alookup_dinsert_self, hv]
      · have ht : alookup t k = some v := by simpa [alookup, e] using h
        have hn' : (t.map Prod.fst).Nodup := (List.nodup_cons.mp (by simpa using hn)).2
        rw [step, ih hn' ht]

/-! Claim theorems. -/

/-- C2: for every choice of arguments, `init_COCO_data` fails with the
`AttributeError` raised by `os.join` before any COCO annotation file is
loaded, and consequently `SDCompare.__init__`, which unconditionally calls
it, never completes successfully for any constructor arguments. -/
theorem init_COCO_data_attribute_error_and_init_never_completes :
    (∀ dp nv nt pci pcf, (init_COCO_data dp nv nt pci pcf).2 = .error osJoinErr ∧
        (init_COCO_data dp nv nt pci pcf).1.countP isCocoLoad = 0) ∧
    (∀ sd cm m clm dp, exceptOk (SDCompare_init sd cm m clm dp).2 = false) := by
  constructor
  · intro dp nv nt pci pcf
    unfold init_COCO_data
    by_cases h1 : truthy pci = false
    · simp [h1]
    · by_cases h2 : truthy pcf = false <;>
        simp [h1, h2, List.countP_cons, List.countP_nil, isCocoLoad]
  · intro sd cm m clm dp
    unfold SDCompare_init
    cases h : init_pipe (initialSDState sd cm m clm dp) none with
    | error e => simp [h, exceptOk]
    | ok s1 => simp [h, init_COCO_data, truthy, exceptOk]

/-- C4: with a valid model name, `__init__` performs `makedirs`, `init_pipe`,
`init_scheduler`, `init_cacher` and the start of `init_COCO_data` in exactly
this order, then aborts with the `os.join` `AttributeError`; `init_CLIP_model`
is never invoked and `inference_steps` is never assigned. -/
theorem SDCompare_init_order_aborts_in_COCO : ∀ sd cm clm dp,
    SDCompare_init sd cm "SD" clm dp =
      ([Ev.makedirs dp, Ev.initPipe "SD", Ev.initScheduler, Ev.initCacher cm,
        Ev.makedirs "imgs_coco", Ev.makedirs "imgs_coco_FID"], .error osJoinErr) := by
  intro sd cm clm dp
  rfl

/-- C6: called with its default path arguments (as `__init__` does),
`init_COCO_data` performs only the two `makedirs` calls and then raises
`AttributeError` at `os.join`; none of the seeding, shuffling, split
selection, downloading or 299x299 resizing it is supposed to do happens. -/
theorem init_COCO_data_preparation_unreachable : ∀ dp nv nt,
    init_COCO_data dp nv nt (some "imgs_coco") (some "imgs_coco_FID") =
      ([Ev.makedirs "imgs_coco", Ev.makedirs "imgs_coco_FID"], .error osJoinErr) := by
  intro dp nv nt
  rfl

/-- C7: `init_scheduler` stores the resolved scheduler dict, replaces the
pipeline's scheduler with one built by `from_config` from the existing
scheduler's config and the dict's `'params'` (empty when absent), and leaves
every other pipeline component and every other attribute unchanged. -/
theorem init_scheduler_frame : ∀ (s : SDState) (arg : Option SchedulerDict),
    (init_scheduler s arg).scheduler_dict = arg.getD s.scheduler_dict ∧
    (init_scheduler s arg).pipe.getSched =
      from_config (arg.getD s.scheduler_dict).scheduler (s.pipe.getSched).config
        ((arg.getD s.scheduler_dict).params.getD []) ∧
    (init_scheduler s arg).pipe.eraseSched = s.pipe.eraseSched ∧
    (init_scheduler s arg).model = s.model ∧
    (init_scheduler s arg).cache_model = s.cache_model ∧
    (init_scheduler s arg).clip_model = s.clip_model ∧
    (init_scheduler s arg).clip_preprocess = s.clip_preprocess ∧
    (init_scheduler s arg).data_path = s.data_path ∧
    (init_scheduler s arg).inference_steps = s.inference_steps ∧
    (init_scheduler s arg).img_ids_val = s.img_ids_val ∧
    (init_scheduler s arg).img_ids_test = s.img_ids_test ∧
    (init_scheduler s arg).path_coco_imgs = s.path_coco_imgs ∧
    (init_scheduler s arg).path_coco_FID = s.path_coco_FID := by
  intro s arg
  refine ⟨rfl, ?_, ?_, rfl, rfl, rfl, rfl, rfl, rfl, rfl, rfl, rfl, rfl⟩
  · simp [init_scheduler, getSched_setSched]
  · simp [init_scheduler, PipeObj.eraseSched, setSched_setSched]

/-- C8: `get_tflops` performs exactly one generation call — the one
`__call__` dispatches for the given prompt and kwargs — and returns the
profiled FLOP count divided by `1e12`, rounded to three decimal places. -/
theorem get_tflops_single_call_round : ∀ s prof prompt pt kwargs,
    (get_tflops s prof prompt pt kwargs).1.length = 1 ∧
    (get_tflops s prof prompt pt kwargs).1 = [SDCompare_call s prompt kwargs] ∧
    (get_tflops s prof prompt pt kwargs).2 =
      pyRound (prof.flops [SDCompare_call s prompt kwargs] / 1000000000000) 3 :=
  fun _ _ _ _ _ => ⟨rfl, rfl, rfl⟩

/-- C1: on a concrete run, `get_stats` saves every resized unconditional
generation under the `FID` subdirectory `gen/FID` of the generation folder,
but then calls `calculate_fid_given_paths` on `("imgs_coco_FID", "gen")` —
the generation folder itself, which is not the directory the images were
saved in. -/
theorem get_stats_fid_on_parent_not_FID_subdir :
    (get_stats exState exOracle (some "gen") "test" true).1 =
      [StatEvent.mkdirs "gen", StatEvent.mkdirs "gen/FID",
       StatEvent.genCond 0 "a photo", StatEvent.genUncond 0,
       StatEvent.saveImg "gen/FID/7.png" 299 299,
       StatEvent.fidCall "imgs_coco_FID" "gen", StatEvent.rmtree "gen/FID"] ∧
    "gen" ≠ "gen/FID" := by
  constructor
  · rfl
  · decide

/-- C3: for a valid split selector, `get_stats` returns a dict whose keys
are exactly `CLIP_mean`, `CLIP_diff` and `FID`; `CLIP_mean` is the mean CLIP
score of the conditionally generated images, `CLIP_diff` the mean absolute
difference between generated and reference scores on the same captions, and
`FID` the value computed by the FID call. -/
theorem get_stats_keys_and_stat_values : ∀ s o pg del vt, vt = "val" ∨ vt = "test" →
    okKeys (get_stats s o pg vt del).2 = some ["CLIP_mean", "CLIP_diff", "FID"] ∧
    okLookup (get_stats s o pg vt del).2 "CLIP_mean" =
      some (((splitIds s vt).enum.map (fun p => (clipPair s o p).1)).sum /
        ((splitIds s vt).length : ℚ)) ∧
    okLookup (get_stats s o pg vt del).2 "CLIP_diff" =
      some (((splitIds s vt).enum.map
          (fun p => |(clipPair s o p).1 - (clipPair s o p).2|)).sum /
        ((splitIds s vt).length : ℚ)) ∧
    okLookup (get_stats s o pg vt del).2 "FID" =
      some (o.fid s.path_coco_FID (pg.getD (default_path_gen s))) := by
  intro s o pg del vt h
  rcases h with rfl | rfl <;>
    simp [get_stats, getSplit, splitIds, okKeys, okLookup, alookup,
      foldl_snoc, List.map_map, Function.comp_def]

theorem get_stats_keys_and_stat_values_witness :
    ("test" = "val" ∨ "test" = "test") ∧
    (okKeys (get_stats exState exOracle none "test" true).2 =
        some ["CLIP_mean", "CLIP_diff", "FID"] ∧
      okLookup (get_stats exState exOracle none "test" true).2 "CLIP_mean" =
        some (((splitIds exState "test").enum.map
            (fun p => (clipPair exState exOracle p).1)).sum /
          ((splitIds exState "test").length : ℚ)) ∧
      okLookup (get_stats exState exOracle none "test" true).2 "CLIP_diff" =
        some (((splitIds exState "test").enum.map
            (fun p => |(clipPair exState exOracle p).1 - (clipPair exState exOracle p).2|)).sum /
          ((splitIds exState "test").length : ℚ)) ∧
      okLookup (get_stats exState exOracle none "test" true).2 "FID" =
        some (exOracle.fid exState.path_coco_FID
          ((none : Option String).getD (default_path_gen exState)))) :=
  ⟨Or.inr rfl,
   get_stats_keys_and_stat_values exState exOracle none true "test" (Or.inr rfl)⟩

/-- C5: `init_cacher` wraps the pipeline in `TgateSDLoader` (model `SD`) or
`TgateSDXLLoader` (model `SDXL`) when the cache model is `tgate` or `both`,
attaches an enabled `DeepCacheSDHelper` with `cache_interval=3` and
`cache_branch_id=0` when it is `deepcache` or `both`, and for any other
non-empty cache-model value leaves the pipeline unmodified and attaches no
helper. -/
theorem init_cacher_dispatch : ∀ (s : SDState) (c : String),
    ((c = "tgate" ∨ c = "both") →
      (s.model = "SD" → (init_cacher s (some c)).1.pipe = PipeObj.tgateSD s.pipe) ∧
      (s.model = "SDXL" → (init_cacher s (some c)).1.pipe = PipeObj.tgateSDXL s.pipe)) ∧
    ((c = "deepcache" ∨ c = "both") →
      Option.map (fun h : DeepCacheHelper => (h.cache_interval, h.cache_branch_id, h.enabled))
        (init_cacher s (some c)).2 = some (3, 0, true)) ∧
    (c ≠ "tgate" → c ≠ "deepcache" → c ≠ "both" → c ≠ "" →
      (init_cacher s (some c)).1.pipe = s.pipe ∧ (init_cacher s (some c)).2 = none) := by
  intro s c
  refine ⟨?_, ?_, ?_⟩
  · rintro (rfl | rfl) <;>
      exact ⟨fun hm => by simp [init_cacher, orSelf, hm],
             fun hm => by simp [init_cacher, orSelf, hm]⟩
  · rintro (rfl | rfl) <;> simp [init_cacher, orSelf]
  · intro h1 h2 h3 h4
    constructor <;> simp [init_cacher, orSelf, h1, h2, h3, h4]

theorem init_cacher_dispatch_witness :
    (init_cacher exState (some "both")).1.pipe = PipeObj.tgateSD exState.pipe ∧
    Option.map (fun h : DeepCacheHelper => (h.cache_interval, h.cache_branch_id, h.enabled))
      (init_cacher exState (some "both")).2 = some (3, 0, true) :=
  ⟨((init_cacher_dispatch exState "both").1 (Or.inr rfl)).1 rfl,
   (init_cacher_dispatch exState "both").2.1 (Or.inr rfl)⟩

/-- The `gate_step` default at the default 15 inference steps:
`max(15 // 2.5, 1)` evaluates to the float `6.0`. -/
theorem gate_step_at_15 :
    pyMax (pyFloorDiv 15 (5 / 2)) (PyNum.int 1) = PyNum.float 6 := by
  have hq : ((15 : ℤ) : ℚ) / (5 / 2) = 6 := by norm_num
  have hfl : pyFloorDiv 15 (5 / 2) = PyNum.float 6 := by
    unfold pyFloorDiv
    rw [hq]
    norm_num
  rw [hfl]
  unfold pyMax PyNum.toRat
  norm_num

/-- C9: `__call__` dispatches to the plain pipeline only when the cache
model is exactly `deepcache`; every other value dispatches to
`self.pipe.tgate` with a `gate_step` default of
`max(self.inference_steps // 2.5, 1)` — a Python float, `6.0` at the default
15 inference steps — and caller kwargs override the defaults in both
branches. -/
theorem call_dispatch_and_gate_step :
    ∀ (s : SDState) (prompt : String) (kwargs : List (String × PVal)),
    (s.cache_model = "deepcache" →
      (SDCompare_call s prompt kwargs).target = CallTarget.pipePlain) ∧
    (s.cache_model ≠ "deepcache" →
      (SDCompare_call s prompt kwargs).target = CallTarget.pipeTgate ∧
      (alookup kwargs "gate_step" = none →
        alookup (SDCompare_call s prompt kwargs).params "gate_step" =
          some (PVal.num (pyMax (pyFloorDiv s.inference_steps (5 / 2)) (PyNum.int 1))))) ∧
    pyMax (pyFloorDiv 15 (5 / 2)) (PyNum.int 1) = PyNum.float 6 ∧
    (∀ k v, (kwargs.map Prod.fst).Nodup → alookup kwargs k = some v →
      alookup (SDCompare_call s prompt kwargs).params k = some v) := by
  intro s prompt kwargs
  refine ⟨?_, ?_, ?_, ?_⟩
  · intro h; simp [SDCompare_call, h]
  · intro h
    refine ⟨by simp [SDCompare_call, h], ?_⟩
    intro hk
    simp only [SDCompare_call, if_neg h]
    rw [alookup_dictUpdate_of_none kwargs "gate_step" hk, alookup_dinsert_self]
  · exact gate_step_at_15
  · intro k v hn hv
    by_cases h : s.cache_model = "deepcache" <;> simp [SDCompare_call, h] <;>
      exact alookup_dictUpdate_of_some kwargs k v hn hv _

theorem call_dispatch_and_gate_step_witness :
    (SDCompare_call exState "a cat" [("num_inference_steps", PVal.num (PyNum.int 10))]).target =
      CallTarget.pipeTgate ∧
    alookup (SDCompare_call exState "a cat"
        [("num_inference_steps", PVal.num (PyNum.int 10))]).params "gate_step" =
      some (PVal.num (PyNum.float 6)) ∧
    alookup (SDCompare_call exState "a cat"
        [("num_inference_steps", PVal.num (PyNum.int 10))]).params "num_inference_steps" =
      some (PVal.num (PyNum.int 10)) := by
  refine ⟨((call_dispatch_and_gate_step exState "a cat"
      [("num_inference_steps", PVal.num (PyNum.int 10))]).2.1 (by decide)).1, ?_, ?_⟩
  · have h := ((call_dispatch_and_gate_step exState "a cat"
      [("num_inference_steps", PVal.num (PyNum.int 10))]).2.1 (by decide)).2 rfl
    rw [h]
    exact congrArg (fun x => some (PVal.num x)) gate_step_at_15
  · exact (call_dispatch_and_gate_step exState "a cat"
      [("num_inference_steps", PVal.num (PyNum.int 10))]).2.2.2
      "num_inference_steps" (PVal.num (PyNum.int 10)) (by decide) rfl

/-- C10: `init_CLIP_model` passes the stored model-name string to
`clip.load` on a first no-argument call, but overwrites `self.clip_model`
with the loaded model object, so a second no-argument call passes that
object — no longer a name — to `clip.load`. -/
theorem init_CLIP_model_overwrites_name : ∀ (s : SDState) (c : String),
    s.clip_model = ClipVal.name c →
    (init_CLIP_model s none).2 = ClipVal.name c ∧
    (init_CLIP_model s none).1.clip_model = ClipVal.loaded (ClipVal.name c) true ∧
    (init_CLIP_model (init_CLIP_model s none).1 none).2 =
      ClipVal.loaded (ClipVal.name c) true ∧
    isName (init_CLIP_model (init_CLIP_model s none).1 none).2 = false := by
  intro s c h
  refine ⟨?_, ?_, ?_, ?_⟩ <;> simp [init_CLIP_model, clipLoad, toCudaEval, h, isName]

theorem init_CLIP_model_overwrites_name_witness :
    (init_CLIP_model exState none).2 = ClipVal.name "ViT-B/32" ∧
    (init_CLIP_model exState none).1.clip_model =
      ClipVal.loaded (ClipVal.name "ViT-B/32") true ∧
    (init_CLIP_model (init_CLIP_model exState none).1 none).2 =
      ClipVal.loaded (ClipVal.name "ViT-B/32") true ∧
    isName (init_CLIP_model (init_CLIP_model exState none).1 none).2 = false :=
  init_CLIP_model_overwrites_name exState "ViT-B/32" rfl
